import Mathlib

/-! Canada Tourism front end: routing table and registration form.

A shallow embedding of `frontend/src/App.js`, `frontend/src/App.tsx` and
`frontend/src/pages/Register.js`.

* JavaScript values that reach the submit handler are modelled by `JsVal`.
* `handleRegister` is split at its single `await`: `registerRequest` is the
  synchronous part (the call `api.post("/auth/register", { username, password })`),
  `resume` is the continuation that runs once the request has settled.
* The module `../api/axios` is not part of the sources; the handler is therefore
  parameterised by the settled answer of the collaborator to a request.
* Effects (requests sent, `alert` dialogs shown) are recorded in order in a trace.
-/

namespace CanadaTourism

/-! ## JavaScript values -/

/-- The JavaScript values the handler can receive from the HTTP collaborator:
`undefined`, `null`, booleans, numbers (identified by their decimal rendering, the
only thing this program can observe of a number), strings, and plain objects given
by their own properties, the first binding of a key being its value.
Arrays and functions are not modelled. -/
inductive JsVal where
  | undefined : JsVal
  | null : JsVal
  | bool (b : Bool) : JsVal
  | num (rendering : String) : JsVal
  | str (s : String) : JsVal
  | obj (fields : List (String × JsVal)) : JsVal

/-- The `TypeError` the engine throws; an object without a `response` property. -/
def typeError : JsVal :=
  JsVal.obj [("name", JsVal.str "TypeError")]

/-- Property read `v.key`, for keys that are neither own nor inherited properties of
primitives or of `Object.prototype` (the program reads `data`, `username`, `response`
and `detail` only). Reading a property of `undefined` or `null` throws a `TypeError`;
a key an object does not own reads as `undefined`; so does any such key of a
boolean, number or string. -/
def getProp (v : JsVal) (key : String) : Except JsVal JsVal :=
  match v with
  | JsVal.undefined => Except.error typeError
  | JsVal.null => Except.error typeError
  | JsVal.obj fields => Except.ok ((fields.lookup key).getD JsVal.undefined)
  | _ => Except.ok JsVal.undefined

/-- Conversion of the right operand of `"text" + v` to a string. A plain object
is rendered by `Object.prototype.toString`, unless it owns a `toString` property:
that property is not callable (no value here is), and the conversion throws. -/
def toStr (v : JsVal) : Except JsVal String :=
  match v with
  | JsVal.undefined => Except.ok "undefined"
  | JsVal.null => Except.ok "null"
  | JsVal.bool true => Except.ok "true"
  | JsVal.bool false => Except.ok "false"
  | JsVal.num rendering => Except.ok rendering
  | JsVal.str s => Except.ok s
  | JsVal.obj fields =>
    match fields.lookup "toString" with
    | some _ => Except.error typeError
    | none => Except.ok "[object Object]"

/-- String concatenation `text + v` with a string literal on the left. -/
def concat (text : String) (v : JsVal) : Except JsVal String :=
  match toStr v with
  | Except.ok s => Except.ok (text ++ s)
  | Except.error e => Except.error e

/-! ## Registration view: state and change handlers (Register.js, lines 5-6, 20-30) -/

/-- The two `useState` cells of `Register`. -/
structure RegisterState where
  username : String
  password : String
  deriving DecidableEq, Repr

/-- State on mount: `useState("")` twice. -/
def mounted : RegisterState :=
  { username := "", password := "" }

/-- `setUsername(e.target.value)`. -/
def setUsername (st : RegisterState) (value : String) : RegisterState :=
  { st with username := value }

/-- `setPassword(e.target.value)`. -/
def setPassword (st : RegisterState) (value : String) : RegisterState :=
  { st with password := value }

/-- A change event on one of the two inputs, carrying `e.target.value`. -/
inductive Edit where
  | username (value : String) : Edit
  | password (value : String) : Edit
  deriving DecidableEq, Repr

/-- The `onChange` handlers of the two inputs. -/
def onChange (st : RegisterState) (e : Edit) : RegisterState :=
  match e with
  | Edit.username value => setUsername st value
  | Edit.password value => setPassword st value

/-- State after a sequence of change events, oldest first. -/
def applyEdits (st : RegisterState) (edits : List Edit) : RegisterState :=
  edits.foldl onChange st

/-- The value of a username edit, if it is one. -/
def Edit.usernameValue (e : Edit) : Option String :=
  match e with
  | Edit.username value => some value
  | Edit.password _ => none

/-- The value of a password edit, if it is one. -/
def Edit.passwordValue (e : Edit) : Option String :=
  match e with
  | Edit.username _ => none
  | Edit.password value => some value

/-! ## The submit handler (Register.js, lines 8-15) -/

/-- An HTTP request handed to the collaborator. -/
structure Request where
  method : String
  path : String
  body : JsVal

/-- An observable effect of the handler. -/
inductive Effect where
  | request (r : Request) : Effect
  | alert (text : String) : Effect

/-- How the promise returned by the async handler settles. -/
inductive Completion where
  | returned : Completion
  | raised (e : JsVal) : Completion

/-- What the continuation of the handler did: its effects in order, and its end. -/
structure Outcome where
  trace : List Effect
  completion : Completion

/-- The object literal `{ username, password }`. -/
def draftBody (st : RegisterState) : JsVal :=
  JsVal.obj [("username", JsVal.str st.username), ("password", JsVal.str st.password)]

/-- Line 10 up to the `await`: `api.post("/auth/register", { username, password })`. -/
def registerRequest (st : RegisterState) : Request :=
  { method := "POST", path := "/auth/register", body := draftBody st }

/-- The argument of the `alert` of line 11: `"Successfully registered: " + res.data.username`. -/
def successText (res : JsVal) : Except JsVal String :=
  match getProp res "data" with
  | Except.error e => Except.error e
  | Except.ok data =>
    match getProp data "username" with
    | Except.error e => Except.error e
    | Except.ok username => concat "Successfully registered: " username

/-- The argument of the `alert` of line 13: `"Fail to register: " + err.response.data.detail`. -/
def failureText (err : JsVal) : Except JsVal String :=
  match getProp err "response" with
  | Except.error e => Except.error e
  | Except.ok response =>
    match getProp response "data" with
    | Except.error e => Except.error e
    | Except.ok data =>
      match getProp data "detail" with
      | Except.error e => Except.error e
      | Except.ok detail => concat "Fail to register: " detail

/-- The `catch (err)` block, lines 12-14. An exception raised inside it is not caught. -/
def catchBlock (err : JsVal) : Outcome :=
  match failureText err with
  | Except.ok text => { trace := [Effect.alert text], completion := Completion.returned }
  | Except.error e => { trace := [], completion := Completion.raised e }

/-- The handler after the `await`: the rest of the `try` block when the request
resolved with `res`, the `catch` block when it rejected, or when the rest of the
`try` block threw. -/
def resume (settled : Except JsVal JsVal) : Outcome :=
  match settled with
  | Except.ok res =>
    match successText res with
    | Except.ok text => { trace := [Effect.alert text], completion := Completion.returned }
    | Except.error e => catchBlock e
  | Except.error err => catchBlock err

/-- One complete run of the handler. -/
structure Run where
  trace : List Effect
  completion : Completion
  state : RegisterState

/-- The request of an effect, if it is one. -/
def Effect.asRequest (e : Effect) : Option Request :=
  match e with
  | Effect.request r => some r
  | Effect.alert _ => none

/-- The text of an effect, if it is an `alert`. -/
def Effect.asAlert (e : Effect) : Option String :=
  match e with
  | Effect.request _ => none
  | Effect.alert text => some text

/-- The requests of a trace, in order. -/
def requestsOf (trace : List Effect) : List Request :=
  trace.filterMap Effect.asRequest

/-- The notifications of a trace, in order. -/
def alertsOf (trace : List Effect) : List String :=
  trace.filterMap Effect.asAlert

/-- `handleRegister` run to its end against a collaborator `api` that settles the
request it is given (`Except.ok` for a resolved promise, `Except.error` for a
rejected one). The handler calls no state setter; the state is handed back as is. -/
def handleRegister (api : Request → Except JsVal JsVal) (st : RegisterState) : Run :=
  let req := registerRequest st
  let rest := resume (api req)
  { trace := Effect.request req :: rest.trace, completion := rest.completion, state := st }

/-! ## What the registration view renders (Register.js, lines 17-33) -/

/-- The event handlers bound in the markup. -/
inductive Handler where
  | setUsername : Handler
  | setPassword : Handler
  | handleRegister : Handler
  deriving DecidableEq, Repr

/-- Host elements without children elements. An input without a `type` attribute
has `inputType = none`. -/
inductive Leaf where
  | h1 (text : String) : Leaf
  | h2 (text : String) : Leaf
  | input (inputType : Option String) (placeholder : String) (value : String)
      (onChange : Handler) : Leaf
  | button (onClick : Handler) (label : String) : Leaf
  deriving DecidableEq, Repr

/-- Rendered markup: a single host element, or a `div` of host elements. -/
inductive Dom where
  | leaf (l : Leaf) : Dom
  | div (children : List Leaf) : Dom
  deriving DecidableEq, Repr

/-- The handlers bound by a host element. -/
def Leaf.handlers (l : Leaf) : List Handler :=
  match l with
  | Leaf.h1 _ => []
  | Leaf.h2 _ => []
  | Leaf.input _ _ _ onChange => [onChange]
  | Leaf.button onClick _ => [onClick]

/-- The handlers bound anywhere in the markup. -/
def Dom.handlers (d : Dom) : List Handler :=
  match d with
  | Dom.leaf l => l.handlers
  | Dom.div children => children.flatMap Leaf.handlers

/-- The markup returned by `Register` for the current state. -/
def Register (st : RegisterState) : Dom :=
  Dom.div
    [ Leaf.h2 "Register",
      Leaf.input none "User Name" st.username Handler.setUsername,
      Leaf.input (some "password") "password" st.password Handler.setPassword,
      Leaf.button Handler.handleRegister "Register" ]

/-! ## The route table (App.js and App.tsx, lines 7-10) -/

/-- The `element` of a route: a host element given inline, or `<Register />`. -/
inductive Element where
  | host (l : Leaf) : Element
  | register : Element
  deriving DecidableEq, Repr

/-- One `<Route path=... element=... />`. -/
structure Route where
  path : String
  element : Element
  deriving DecidableEq, Repr

/-- The children of `<Routes>` in App.js. -/
def AppJs.routes : List Route :=
  [ { path := "/", element := Element.host (Leaf.h1 "Welcome to Canada Tourism") },
    { path := "/register", element := Element.register } ]

/-- The children of `<Routes>` in App.tsx. -/
def AppTsx.routes : List Route :=
  [ { path := "/", element := Element.host (Leaf.h1 "Welcome to Canada Tourism") },
    { path := "/register", element := Element.register } ]

/-- Removal of the slashes at the end of a path. -/
def dropTrailingSlashes (cs : List Char) : List Char :=
  (cs.reverse.dropWhile (fun c => c == '/')).reverse

/-- A static pattern, normalised to one leading slash and no trailing slash. -/
def patternCore (pattern : String) : List Char :=
  '/' :: (dropTrailingSlashes pattern.data).dropWhile (fun c => c == '/')

/-- Whether the remaining pattern characters match the remaining path: letters are
compared without regard to case, and the path may end in extra slashes. -/
def matchStatic : List Char → List Char → Bool
  | [], rest => rest.all (fun c => c == '/')
  | _ :: _, [] => false
  | c :: cs, p :: ps => c.toLower == p.toLower && matchStatic cs ps

/-- Model of the router library matching a pattern without parameters or wildcard
against the whole pathname (the library is not part of the sources): the match is
case-insensitive and ignores trailing slashes. -/
def matchPath (pattern pathname : String) : Bool :=
  matchStatic (patternCore pattern) pathname.data

/-- The routes of a table that match a pathname. -/
def matching (routes : List Route) (pathname : String) : List Route :=
  routes.filter (fun r => matchPath r.path pathname)

/-- What `<Routes>` renders at a pathname: the element of the matching route, or
nothing. The library tries routes in rank order; the routes of this table never
match the same pathname, so the order plays no part. -/
def selectElement (routes : List Route) (pathname : String) : Option Element :=
  (matching routes pathname).head?.map Route.element

/-- The result of rendering an element: the markup, and the effects performed while
rendering it. -/
structure Rendered where
  dom : Dom
  trace : List Effect

/-- Rendering of a route element. A host element is returned as it stands; the body
of `Register` reads its two state cells and returns its markup. Neither calls the
HTTP collaborator or `alert`. -/
def render (el : Element) (st : RegisterState) : Rendered :=
  match el with
  | Element.host l => { dom := Dom.leaf l, trace := [] }
  | Element.register => { dom := Register st, trace := [] }

/-! ## The page as an event-driven system -/

/-- What the user can do on the registration view. -/
inductive UiEvent where
  | change (e : Edit) : UiEvent
  | click : UiEvent

/-- An event of the single-threaded event loop: a user action, or the settling of
the in-flight request at a position of the in-flight list. -/
inductive Event where
  | ui (e : UiEvent) : Event
  | settle (i : Nat) (settled : Except JsVal JsVal) : Event

/-- The page between two events: the draft, the requests not yet settled (oldest
first), every effect so far, and the errors raised by handler runs. -/
structure Page where
  draft : RegisterState
  inflight : List Request
  trace : List Effect
  unhandled : List JsVal

/-- The page right after mount. -/
def Page.initial : Page :=
  { draft := mounted, inflight := [], trace := [], unhandled := [] }

/-- Errors raised so far, extended by the end of one handler run. -/
def recordCompletion (unhandled : List JsVal) (c : Completion) : List JsVal :=
  match c with
  | Completion.returned => unhandled
  | Completion.raised e => unhandled ++ [e]

/-- One event. A change event runs the `onChange` handler. A click on the button
runs `handleRegister` up to its `await`: the button has no `disabled` attribute and
the handler has no guard. Settling an in-flight request runs the continuation of
the handler run that issued it. -/
def step (pg : Page) (ev : Event) : Page :=
  match ev with
  | Event.ui (UiEvent.change e) => { pg with draft := onChange pg.draft e }
  | Event.ui UiEvent.click =>
    { pg with
      inflight := pg.inflight ++ [registerRequest pg.draft],
      trace := pg.trace ++ [Effect.request (registerRequest pg.draft)] }
  | Event.settle i settled =>
    if i < pg.inflight.length then
      { pg with
        inflight := pg.inflight.eraseIdx i,
        trace := pg.trace ++ (resume settled).trace,
        unhandled := recordCompletion pg.unhandled (resume settled).completion }
    else pg

/-- The page after a sequence of events, oldest first. -/
def runEvents (pg : Page) (evs : List Event) : Page :=
  evs.foldl step pg

/-- Specification side: the drafts at the moments of the clicks in a sequence of
user actions starting from draft `st`, oldest first. -/
def spec_draftsAtClicks (st : RegisterState) : List UiEvent → List RegisterState
  | [] => []
  | UiEvent.change (Edit.username value) :: rest =>
    spec_draftsAtClicks { username := value, password := st.password } rest
  | UiEvent.change (Edit.password value) :: rest =>
    spec_draftsAtClicks { username := st.username, password := value } rest
  | UiEvent.click :: rest => st :: spec_draftsAtClicks st rest

/-- Specification side: the number of clicks in a sequence of user actions. -/
def spec_clicks : List UiEvent → Nat
  | [] => 0
  | UiEvent.change _ :: rest => spec_clicks rest
  | UiEvent.click :: rest => spec_clicks rest + 1

/-! ## Auxiliary facts -/

theorem requestsOf_catchBlock (err : JsVal) : requestsOf (catchBlock err).trace = [] := by
  unfold catchBlock
  cases failureText err <;> rfl

theorem requestsOf_resume (settled : Except JsVal JsVal) :
    requestsOf (resume settled).trace = [] := by
  cases settled with
  | error err => exact requestsOf_catchBlock err
  | ok res =>
    simp only [resume]
    split
    · rfl
    · exact requestsOf_catchBlock _

theorem applyEdits_username (edits : List Edit) (st : RegisterState) :
    (applyEdits st edits).username
      = ((edits.filterMap Edit.usernameValue).getLast?).getD st.username := by
  induction edits generalizing st with
  | nil => rfl
  | cons e rest ih =>
    have hstep : applyEdits st (e :: rest) = applyEdits (onChange st e) rest := rfl
    rw [hstep, ih]
    cases e with
    | username v =>
      simp [Edit.usernameValue, onChange, setUsername, List.getLast?_cons]
    | password v =>
      simp [Edit.usernameValue, onChange, setPassword]

theorem applyEdits_password (edits : List Edit) (st : RegisterState) :
    (applyEdits st edits).password
      = ((edits.filterMap Edit.passwordValue).getLast?).getD st.password := by
  induction edits generalizing st with
  | nil => rfl
  | cons e rest ih =>
    have hstep : applyEdits st (e :: rest) = applyEdits (onChange st e) rest := rfl
    rw [hstep, ih]
    cases e with
    | username v =>
      simp [Edit.passwordValue, onChange, setUsername]
    | password v =>
      simp [Edit.passwordValue, onChange, setPassword, List.getLast?_cons]

theorem success_text_ne_failure_text (s d : String) :
    "Successfully registered: " ++ s ≠ "Fail to register: " ++ d := by
  intro h
  have hdata := congrArg String.data h
  simp [String.data_append] at hdata

/-! ## The submit handler: request, success and failure notifications -/

/-- C1: for every draft and every way the collaborator settles the request, one run
of `handleRegister` issues exactly one request, a POST to `/auth/register` whose body
is the object of the unmodified username and password; it is the first effect of the
run, and nothing after it is a request. -/
theorem handleRegister_sends_one_post (api : Request → Except JsVal JsVal)
    (st : RegisterState) :
    requestsOf (handleRegister api st).trace
        = [{ method := "POST", path := "/auth/register",
             body := JsVal.obj [("username", JsVal.str st.username),
                                ("password", JsVal.str st.password)] }]
      ∧ (handleRegister api st).trace.head? = some (Effect.request (registerRequest st))
      ∧ requestsOf (handleRegister api st).trace.tail = [] := by
  refine ⟨?_, rfl, ?_⟩
  · have h := requestsOf_resume (api (registerRequest st))
    show registerRequest st :: requestsOf (resume (api (registerRequest st))).trace = _
    rw [h]
    rfl
  · exact requestsOf_resume (api (registerRequest st))

/-- C2: starting from the mounted state, after any sequence of username and password
edits the username is the value of the last username edit (empty if none) and the
password is the value of the last password edit (empty if none), unchanged; the two
inputs display these values; an edit of one field sets that field to the value given
and leaves the other field as it was. -/
theorem edits_last_write_wins (edits : List Edit) :
    (applyEdits mounted edits).username
        = ((edits.filterMap Edit.usernameValue).getLast?).getD ""
      ∧ (applyEdits mounted edits).password
        = ((edits.filterMap Edit.passwordValue).getLast?).getD ""
      ∧ Register (applyEdits mounted edits)
        = Dom.div
            [ Leaf.h2 "Register",
              Leaf.input none "User Name"
                (((edits.filterMap Edit.usernameValue).getLast?).getD "") Handler.setUsername,
              Leaf.input (some "password") "password"
                (((edits.filterMap Edit.passwordValue).getLast?).getD "") Handler.setPassword,
              Leaf.button Handler.handleRegister "Register" ]
      ∧ (∀ (st : RegisterState) (v : String),
          onChange st (Edit.username v) = { username := v, password := st.password })
      ∧ (∀ (st : RegisterState) (v : String),
          onChange st (Edit.password v) = { username := st.username, password := v }) := by
  have hu := applyEdits_username edits mounted
  have hp := applyEdits_password edits mounted
  refine ⟨hu, hp, ?_, fun _ _ => rfl, fun _ _ => rfl⟩
  simp only [Register, hu, hp]
  rfl

/-- C3: when the request resolves with an object whose `data` is an object with
`username` equal to the string `s`, the run shows exactly one notification, the text
`Successfully registered: ` followed by `s`; no failure notification is shown and
the handler returns normally. -/
theorem handleRegister_success_notification (api : Request → Except JsVal JsVal)
    (st : RegisterState) (resFields dataFields : List (String × JsVal)) (s : String)
    (hres : api (registerRequest st) = Except.ok (JsVal.obj resFields))
    (hdata : resFields.lookup "data" = some (JsVal.obj dataFields))
    (huser : dataFields.lookup "username" = some (JsVal.str s)) :
    alertsOf (handleRegister api st).trace = ["Successfully registered: " ++ s]
      ∧ (∀ d : String, "Fail to register: " ++ d ∉ alertsOf (handleRegister api st).trace)
      ∧ (handleRegister api st).completion = Completion.returned := by
  have halerts : alertsOf (handleRegister api st).trace = ["Successfully registered: " ++ s] := by
    simp [handleRegister, hres, resume, successText, getProp, hdata, huser, concat, toStr,
      alertsOf, Effect.asAlert]
  refine ⟨halerts, ?_, ?_⟩
  · intro d hd
    rw [halerts, List.mem_singleton] at hd
    exact success_text_ne_failure_text s d hd.symm
  · simp [handleRegister, hres, resume, successText, getProp, hdata, huser, concat, toStr]

/-- Witness of C3 at the response with data username alice. -/
theorem handleRegister_success_notification_witness :
    alertsOf (handleRegister
        (fun _ => Except.ok (JsVal.obj [("data", JsVal.obj [("username", JsVal.str "alice")])]))
        { username := "alice", password := "secret" }).trace
        = ["Successfully registered: " ++ "alice"]
      ∧ (∀ d : String, "Fail to register: " ++ d ∉ alertsOf (handleRegister
        (fun _ => Except.ok (JsVal.obj [("data", JsVal.obj [("username", JsVal.str "alice")])]))
        { username := "alice", password := "secret" }).trace)
      ∧ (handleRegister
        (fun _ => Except.ok (JsVal.obj [("data", JsVal.obj [("username", JsVal.str "alice")])]))
        { username := "alice", password := "secret" }).completion = Completion.returned :=
  handleRegister_success_notification
    (fun _ => Except.ok (JsVal.obj [("data", JsVal.obj [("username", JsVal.str "alice")])]))
    { username := "alice", password := "secret" }
    [("data", JsVal.obj [("username", JsVal.str "alice")])]
    [("username", JsVal.str "alice")] "alice" rfl rfl rfl

/-- C4: when the request rejects with an error whose `response.data.detail` is the
string `d`, the run shows exactly one notification, the text `Fail to register: `
followed by `d`; no success notification is shown and the handler returns normally,
without raising. -/
theorem handleRegister_failure_notification (api : Request → Except JsVal JsVal)
    (st : RegisterState) (errFields respFields dataFields : List (String × JsVal))
    (d : String)
    (hrej : api (registerRequest st) = Except.error (JsVal.obj errFields))
    (hresp : errFields.lookup "response" = some (JsVal.obj respFields))
    (hdata : respFields.lookup "data" = some (JsVal.obj dataFields))
    (hdetail : dataFields.lookup "detail" = some (JsVal.str d)) :
    alertsOf (handleRegister api st).trace = ["Fail to register: " ++ d]
      ∧ (∀ s : String,
          "Successfully registered: " ++ s ∉ alertsOf (handleRegister api st).trace)
      ∧ (handleRegister api st).completion = Completion.returned := by
  have halerts : alertsOf (handleRegister api st).trace = ["Fail to register: " ++ d] := by
    simp [handleRegister, hrej, resume, catchBlock, failureText, getProp, hresp, hdata,
      hdetail, concat, toStr, alertsOf, Effect.asAlert]
  refine ⟨halerts, ?_, ?_⟩
  · intro s hs
    rw [halerts, List.mem_singleton] at hs
    exact success_text_ne_failure_text s d hs
  · simp [handleRegister, hrej, resume, catchBlock, failureText, getProp, hresp, hdata,
      hdetail, concat, toStr]

/-- Witness of C4 at the error body with detail username taken. -/
theorem handleRegister_failure_notification_witness :
    alertsOf (handleRegister
        (fun _ => Except.error (JsVal.obj
          [("response", JsVal.obj [("data", JsVal.obj [("detail", JsVal.str "username taken")])])]))
        { username := "alice", password := "secret" }).trace
        = ["Fail to register: " ++ "username taken"]
      ∧ (∀ s : String, "Successfully registered: " ++ s ∉ alertsOf (handleRegister
        (fun _ => Except.error (JsVal.obj
          [("response", JsVal.obj [("data", JsVal.obj [("detail", JsVal.str "username taken")])])]))
        { username := "alice", password := "secret" }).trace)
      ∧ (handleRegister
        (fun _ => Except.error (JsVal.obj
          [("response", JsVal.obj [("data", JsVal.obj [("detail", JsVal.str "username taken")])])]))
        { username := "alice", password := "secret" }).completion = Completion.returned :=
  handleRegister_failure_notification
    (fun _ => Except.error (JsVal.obj
      [("response", JsVal.obj [("data", JsVal.obj [("detail", JsVal.str "username taken")])])]))
    { username := "alice", password := "secret" }
    [("response", JsVal.obj [("data", JsVal.obj [("detail", JsVal.str "username taken")])])]
    [("data", JsVal.obj [("detail", JsVal.str "username taken")])]
    [("detail", JsVal.str "username taken")] "username taken" rfl rfl rfl rfl

/-! ## Rejections without a usable error body -/

/-- C5, as stated, fails: for a rejection whose error response has a body that is an
object without a `detail` property, the handler does not raise; it shows the
notification `Fail to register: undefined` and returns normally. -/
theorem handleRegister_body_without_detail_alerts :
    alertsOf (handleRegister
        (fun _ => Except.error (JsVal.obj [("response", JsVal.obj [("data", JsVal.obj [])])]))
        mounted).trace = ["Fail to register: undefined"]
      ∧ (handleRegister
        (fun _ => Except.error (JsVal.obj [("response", JsVal.obj [("data", JsVal.obj [])])]))
        mounted).completion = Completion.returned :=
  ⟨rfl, rfl⟩

/-- C5, amended: for a rejection whose error has a response object, when the
response has no body (its `data` is absent, `undefined` or `null`) the handler raises
a `TypeError` and shows no notification; when the body is an object without a
`detail` property the handler does not raise: it shows the one notification
`Fail to register: undefined` and returns normally. -/
theorem handleRegister_rejection_body_cases (api : Request → Except JsVal JsVal)
    (st : RegisterState) (errFields respFields : List (String × JsVal))
    (hrej : api (registerRequest st) = Except.error (JsVal.obj errFields))
    (hresp : errFields.lookup "response" = some (JsVal.obj respFields)) :
    ((respFields.lookup "data" = none ∨ respFields.lookup "data" = some JsVal.undefined
          ∨ respFields.lookup "data" = some JsVal.null) →
        alertsOf (handleRegister api st).trace = []
          ∧ (handleRegister api st).completion = Completion.raised typeError)
      ∧ (∀ dataFields : List (String × JsVal),
          respFields.lookup "data" = some (JsVal.obj dataFields) →
          dataFields.lookup "detail" = none →
          alertsOf (handleRegister api st).trace = ["Fail to register: undefined"]
            ∧ (handleRegister api st).completion = Completion.returned) := by
  constructor
  · intro hbody
    rcases hbody with h | h | h <;>
      simp [handleRegister, hrej, resume, catchBlock, failureText, getProp, hresp, h,
        alertsOf, Effect.asAlert]
  · intro dataFields hdata hdetail
    simp [handleRegister, hrej, resume, catchBlock, failureText, getProp, hresp, hdata,
      hdetail, concat, toStr, alertsOf, Effect.asAlert]

/-- Witness of the amended C5: a response without `data`, and a response whose
`data` is the empty object. -/
theorem handleRegister_rejection_body_cases_witness :
    (alertsOf (handleRegister
        (fun _ => Except.error (JsVal.obj [("response", JsVal.obj [])])) mounted).trace = []
      ∧ (handleRegister
        (fun _ => Except.error (JsVal.obj [("response", JsVal.obj [])])) mounted).completion
          = Completion.raised typeError)
    ∧ (alertsOf (handleRegister
        (fun _ => Except.error (JsVal.obj [("response", JsVal.obj [("data", JsVal.obj [])])]))
        mounted).trace = ["Fail to register: undefined"]
      ∧ (handleRegister
        (fun _ => Except.error (JsVal.obj [("response", JsVal.obj [("data", JsVal.obj [])])]))
        mounted).completion = Completion.returned) :=
  ⟨(handleRegister_rejection_body_cases
      (fun _ => Except.error (JsVal.obj [("response", JsVal.obj [])])) mounted
      [("response", JsVal.obj [])] [] rfl rfl).1 (Or.inl rfl),
   (handleRegister_rejection_body_cases
      (fun _ => Except.error (JsVal.obj [("response", JsVal.obj [("data", JsVal.obj [])])]))
      mounted [("response", JsVal.obj [("data", JsVal.obj [])])] [("data", JsVal.obj [])]
      rfl rfl).2 [] rfl rfl⟩

/-- C6: a rejection whose error carries no response object (the property is absent,
`undefined` or `null`) is handled by the same `catch` block as every other
rejection; reading the body of the missing response raises a `TypeError` that
nothing catches, no notification is shown, and the only request is the one already
sent. -/
theorem handleRegister_network_failure_raises (api : Request → Except JsVal JsVal)
    (st : RegisterState) (errFields : List (String × JsVal))
    (hrej : api (registerRequest st) = Except.error (JsVal.obj errFields))
    (hnone : errFields.lookup "response" = none
      ∨ errFields.lookup "response" = some JsVal.undefined
      ∨ errFields.lookup "response" = some JsVal.null) :
    (∀ err : JsVal, resume (Except.error err) = catchBlock err)
      ∧ (∃ response : JsVal,
          getProp (JsVal.obj errFields) "response" = Except.ok response
            ∧ getProp response "data" = Except.error typeError)
      ∧ (handleRegister api st).completion = Completion.raised typeError
      ∧ alertsOf (handleRegister api st).trace = []
      ∧ requestsOf (handleRegister api st).trace = [registerRequest st] := by
  refine ⟨fun _ => rfl, ?_, ?_, ?_, ?_⟩
  · rcases hnone with h | h | h <;> simp [getProp, h]
  · rcases hnone with h | h | h <;>
      simp [handleRegister, hrej, resume, catchBlock, failureText, getProp, h]
  · rcases hnone with h | h | h <;>
      simp [handleRegister, hrej, resume, catchBlock, failureText, getProp, h, alertsOf,
        Effect.asAlert]
  · rcases hnone with h | h | h <;>
      simp [handleRegister, hrej, resume, catchBlock, failureText, getProp, h, requestsOf,
        Effect.asRequest]

/-- Witness of C6 at an error object that has a message and no response. -/
theorem handleRegister_network_failure_raises_witness :
    (∀ err : JsVal, resume (Except.error err) = catchBlock err)
      ∧ (∃ response : JsVal,
          getProp (JsVal.obj [("message", JsVal.str "Network Error")]) "response"
              = Except.ok response
            ∧ getProp response "data" = Except.error typeError)
      ∧ (handleRegister
          (fun _ => Except.error (JsVal.obj [("message", JsVal.str "Network Error")]))
          mounted).completion = Completion.raised typeError
      ∧ alertsOf (handleRegister
          (fun _ => Except.error (JsVal.obj [("message", JsVal.str "Network Error")]))
          mounted).trace = []
      ∧ requestsOf (handleRegister
          (fun _ => Except.error (JsVal.obj [("message", JsVal.str "Network Error")]))
          mounted).trace = [registerRequest mounted] :=
  handleRegister_network_failure_raises
    (fun _ => Except.error (JsVal.obj [("message", JsVal.str "Network Error")]))
    mounted [("message", JsVal.str "Network Error")] rfl (Or.inl rfl)

/-! ## Routing -/

/-- No pathname matches both patterns of the table. -/
theorem root_and_register_disjoint (pathname : String) :
    ¬ (matchPath "/" pathname = true ∧ matchPath "/register" pathname = true) := by
  have h1 : patternCore "/" = ['/'] := by decide
  have h2 : patternCore "/register" = ['/', 'r', 'e', 'g', 'i', 's', 't', 'e', 'r'] := by
    decide
  unfold matchPath
  rw [h1, h2]
  rcases pathname.data with _ | ⟨p, ps⟩
  · simp [matchStatic]
  · rcases ps with _ | ⟨q, qs⟩
    · simp [matchStatic]
    · simp only [matchStatic, List.all_cons, Bool.and_eq_true, beq_iff_eq]
      rintro ⟨⟨_, hq, _⟩, _, hr, _⟩
      subst hq
      revert hr
      decide

/-- At every pathname at most one route of the table matches. -/
theorem matching_length_le_one (pathname : String) :
    (matching AppJs.routes pathname).length ≤ 1 := by
  have hdis := root_and_register_disjoint pathname
  simp only [matching, AppJs.routes, List.filter]
  cases h1 : matchPath "/" pathname <;> cases h2 : matchPath "/register" pathname <;>
    simp_all

/-- C7: the route table holds exactly two routes, `/` bound to the heading
`Welcome to Canada Tourism` and `/register` bound to the registration view; at
each of these two pathnames exactly one route matches and its element is the one
rendered; App.js and App.tsx declare the same table. -/
theorem route_table_two_routes :
    AppJs.routes
        = [ { path := "/", element := Element.host (Leaf.h1 "Welcome to Canada Tourism") },
            { path := "/register", element := Element.register } ]
      ∧ AppTsx.routes = AppJs.routes
      ∧ AppJs.routes.length = 2
      ∧ matching AppJs.routes "/"
        = [ { path := "/", element := Element.host (Leaf.h1 "Welcome to Canada Tourism") } ]
      ∧ matching AppJs.routes "/register"
        = [ { path := "/register", element := Element.register } ]
      ∧ selectElement AppJs.routes "/"
        = some (Element.host (Leaf.h1 "Welcome to Canada Tourism"))
      ∧ selectElement AppJs.routes "/register" = some Element.register := by
  refine ⟨rfl, rfl, rfl, ?_, ?_, ?_, ?_⟩ <;> decide

/-- C8: at the pathname `/` the router renders the heading
`Welcome to Canada Tourism`, whatever the state of the registration view; the
markup binds no handler, and rendering it issues no request and performs no other
effect. -/
theorem welcome_route_is_static (st : RegisterState) :
    (selectElement AppJs.routes "/").map (fun el => (render el st).dom)
        = some (Dom.leaf (Leaf.h1 "Welcome to Canada Tourism"))
      ∧ (selectElement AppJs.routes "/").map (fun el => (render el st).dom.handlers)
        = some []
      ∧ (selectElement AppJs.routes "/").map (fun el => requestsOf (render el st).trace)
        = some []
      ∧ (selectElement AppJs.routes "/").map (fun el => (render el st).trace.length)
        = some 0 := by
  have hsel : selectElement AppJs.routes "/"
      = some (Element.host (Leaf.h1 "Welcome to Canada Tourism")) := by decide
  rw [hsel]
  exact ⟨rfl, rfl, rfl, rfl⟩

/-! ## Repeated submission and the draft -/

theorem runEvents_cons (pg : Page) (ev : Event) (evs : List Event) :
    runEvents pg (ev :: evs) = runEvents (step pg ev) evs :=
  rfl

theorem requestsOf_append (xs ys : List Effect) :
    requestsOf (xs ++ ys) = requestsOf xs ++ requestsOf ys := by
  simp [requestsOf, List.filterMap_append]

theorem runEvents_ui_inflight (evs : List UiEvent) (pg : Page) :
    (runEvents pg (evs.map Event.ui)).inflight
      = pg.inflight ++ (spec_draftsAtClicks pg.draft evs).map registerRequest := by
  induction evs generalizing pg with
  | nil => simp [runEvents, spec_draftsAtClicks]
  | cons e rest ih =>
    rw [List.map_cons, runEvents_cons, ih]
    cases e with
    | change c =>
      cases c <;> simp [step, spec_draftsAtClicks, onChange, setUsername, setPassword]
    | click => simp [step, spec_draftsAtClicks]

theorem runEvents_ui_requests (evs : List UiEvent) (pg : Page) :
    requestsOf (runEvents pg (evs.map Event.ui)).trace
      = requestsOf pg.trace ++ (spec_draftsAtClicks pg.draft evs).map registerRequest := by
  induction evs generalizing pg with
  | nil => simp [runEvents, spec_draftsAtClicks]
  | cons e rest ih =>
    rw [List.map_cons, runEvents_cons, ih]
    cases e with
    | change c =>
      cases c <;> simp [step, spec_draftsAtClicks, onChange, setUsername, setPassword]
    | click =>
      simp [step, spec_draftsAtClicks, requestsOf_append, requestsOf, Effect.asRequest]

theorem spec_draftsAtClicks_length (evs : List UiEvent) (st : RegisterState) :
    (spec_draftsAtClicks st evs).length = spec_clicks evs := by
  induction evs generalizing st with
  | nil => rfl
  | cons e rest ih =>
    cases e with
    | change c =>
      cases c <;> simp [spec_draftsAtClicks, spec_clicks, ih]
    | click => simp [spec_draftsAtClicks, spec_clicks, ih]

theorem spec_draftsAtClicks_replicate (k : Nat) (st : RegisterState) :
    spec_draftsAtClicks st (List.replicate k UiEvent.click) = List.replicate k st := by
  induction k with
  | zero => rfl
  | succ n ih => simp [List.replicate_succ, spec_draftsAtClicks, ih]

/-- C9: no in-flight state guards the button. After any sequence of edits and
clicks during which no request settles, the in-flight list has grown by one request
per click, in order, and the request of a click is the POST to `/auth/register`
whose body holds the username and the password as the edits before that click left
them; the same requests, and no others, were added to the effect trace; in
particular `k` clicks in a row leave `k` more such requests in flight, all carrying
the current draft. -/
theorem clicks_each_issue_a_request (pg : Page) (evs : List UiEvent) :
    (runEvents pg (evs.map Event.ui)).inflight
        = pg.inflight ++ (spec_draftsAtClicks pg.draft evs).map
            (fun d => { method := "POST", path := "/auth/register",
                        body := JsVal.obj [("username", JsVal.str d.username),
                                           ("password", JsVal.str d.password)] })
      ∧ requestsOf (runEvents pg (evs.map Event.ui)).trace
        = requestsOf pg.trace ++ (spec_draftsAtClicks pg.draft evs).map
            (fun d => { method := "POST", path := "/auth/register",
                        body := JsVal.obj [("username", JsVal.str d.username),
                                           ("password", JsVal.str d.password)] })
      ∧ (runEvents pg (evs.map Event.ui)).inflight.length
        = pg.inflight.length + spec_clicks evs
      ∧ (∀ k : Nat,
          (runEvents pg ((List.replicate k UiEvent.click).map Event.ui)).inflight
            = pg.inflight ++ List.replicate k
                { method := "POST", path := "/auth/register",
                  body := JsVal.obj [("username", JsVal.str pg.draft.username),
                                     ("password", JsVal.str pg.draft.password)] }) := by
  have hfun : (fun d : RegisterState =>
      ({ method := "POST", path := "/auth/register",
         body := JsVal.obj [("username", JsVal.str d.username),
                            ("password", JsVal.str d.password)] } : Request))
      = registerRequest := funext fun _ => rfl
  refine ⟨?_, ?_, ?_, ?_⟩
  · rw [hfun]
    exact runEvents_ui_inflight evs pg
  · rw [hfun]
    exact runEvents_ui_requests evs pg
  · rw [runEvents_ui_inflight, List.length_append, List.length_map,
      spec_draftsAtClicks_length]
  · intro k
    rw [runEvents_ui_inflight, spec_draftsAtClicks_replicate, List.map_replicate]
    rfl

/-- C10: the handler never writes the draft. Whatever the collaborator answers, the
state after a run of `handleRegister` is the state before it; on the page, neither
a click nor the settling of a request (resolved or rejected, handled or raising)
changes the draft. -/
theorem handleRegister_keeps_draft (api : Request → Except JsVal JsVal)
    (st : RegisterState) :
    (handleRegister api st).state = st
      ∧ (∀ pg : Page, (step pg (Event.ui UiEvent.click)).draft = pg.draft)
      ∧ (∀ (pg : Page) (i : Nat) (settled : Except JsVal JsVal),
          (step pg (Event.settle i settled)).draft = pg.draft) := by
  refine ⟨rfl, fun _ => rfl, ?_⟩
  intro pg i settled
  simp only [step]
  split <;> rfl

end CanadaTourism
